import Mathlib

/-!
Verification of the countdown-timer core (`src/timer/state.rs`, `src/timer/logic.rs`).

The Rust code is shallowly embedded:
* `TimerState` mirrors the Rust struct; `u32` fields become `Nat`, and the
  arithmetic that could wrap in `u32` carries an explicit `% 2^32`.
* The mutating methods of `TimerLogic` become pure functions from the owned
  `TimerState` to the new `TimerState`, paired with the method's return value
  and the list of state snapshots passed to `notify_state_change` (i.e. the
  snapshots a registered observer callback would receive, in order).
* `Reachable` captures the states a `TimerLogic` instance can own: the default
  state of `TimerLogic::new`, the validated state of `TimerLogic::with_time`,
  and anything produced from a reachable state by one public mutating call.
-/

/-- Mirrors `TimerState` of `src/timer/state.rs`. -/
structure TimerState where
  hours : Nat
  minutes : Nat
  seconds : Nat
  remaining_seconds : Nat
  is_running : Bool
  is_completed : Bool
deriving DecidableEq

/-- Mirrors `impl Default for TimerState`: all fields zero / false. -/
def TimerState.default : TimerState :=
  { hours := 0, minutes := 0, seconds := 0, remaining_seconds := 0,
    is_running := false, is_completed := false }

/-- The `u32` modulus: wrapping point of the Rust total-seconds arithmetic. -/
def u32Mod : Nat := 4294967296

/-- Mirrors `TimerState::new`: stores the configuration and computes
`remaining_seconds = hours*3600 + minutes*60 + seconds` in `u32`. -/
def TimerState.new (hours minutes seconds : Nat) : TimerState :=
  { hours := hours, minutes := minutes, seconds := seconds,
    remaining_seconds := (hours * 3600 + minutes * 60 + seconds) % u32Mod,
    is_running := false, is_completed := false }

/-- Mirrors `TimerState::reset`: recompute `remaining_seconds` from the stored
configuration and clear both flags. -/
def TimerState.reset (st : TimerState) : TimerState :=
  { st with
    remaining_seconds := (st.hours * 3600 + st.minutes * 60 + st.seconds) % u32Mod,
    is_running := false, is_completed := false }

/-- Models Rust's `{:02}` formatting of an unsigned integer: zero-pad to two
digits, wider values printed in full. -/
def pad2 (n : Nat) : String :=
  if n < 10 then "0" ++ toString n else toString n

/-- Mirrors `TimerState::format_remaining_time`. -/
def TimerState.format_remaining_time (st : TimerState) : String :=
  pad2 (st.remaining_seconds / 3600) ++ ":" ++
    pad2 (st.remaining_seconds % 3600 / 60) ++ ":" ++
    pad2 (st.remaining_seconds % 60)

/-- The error string of the hours range check in `validate_time`. -/
def hoursErrMsg (hours : Nat) : String :=
  "Hours must be between 0 and 23, got " ++ toString hours

/-- The error string of the minutes range check in `validate_time`. -/
def minutesErrMsg (minutes : Nat) : String :=
  "Minutes must be between 0 and 59, got " ++ toString minutes

/-- The error string of the seconds range check in `validate_time`. -/
def secondsErrMsg (seconds : Nat) : String :=
  "Seconds must be between 0 and 59, got " ++ toString seconds

/-- The error string of the zero-duration check in `validate_time`. -/
def zeroErrMsg : String := "Timer duration cannot be zero"

/-- Mirrors `validate_time` of `src/timer/logic.rs`: the four checks in source
order, first failure wins. -/
def validate_time (hours minutes seconds : Nat) : Except String Unit :=
  if hours > 23 then .error (hoursErrMsg hours)
  else if minutes > 59 then .error (minutesErrMsg minutes)
  else if seconds > 59 then .error (secondsErrMsg seconds)
  else if hours = 0 ∧ minutes = 0 ∧ seconds = 0 then .error zeroErrMsg
  else .ok ()

/-- Mirrors `TimerLogic::new`: the state a fresh controller owns. -/
def TimerLogic.new : TimerState := TimerState.default

/-- Mirrors `TimerLogic::with_time`: validate, then construct. -/
def TimerLogic.with_time (hours minutes seconds : Nat) : Except String TimerState :=
  match validate_time hours minutes seconds with
  | .error e => .error e
  | .ok _ => .ok (TimerState.new hours minutes seconds)

/-- Mirrors `TimerLogic::set_time`: validate, and on success replace the whole
state with `TimerState::new` and notify once.  Returns the method result, the
state after the call, and the notified snapshots. -/
def TimerLogic.set_time (st : TimerState) (hours minutes seconds : Nat) :
    Except String Unit × TimerState × List TimerState :=
  match validate_time hours minutes seconds with
  | .error e => (.error e, st, [])
  | .ok _ =>
      let st' := TimerState.new hours minutes seconds
      (.ok (), st', [st'])

/-- Mirrors `TimerLogic::start_timer`: eligible when `!is_completed` and
`remaining_seconds > 0`; then set `is_running`, clear `is_completed`, notify. -/
def TimerLogic.start_timer (st : TimerState) : TimerState × List TimerState :=
  if st.is_completed = false ∧ 0 < st.remaining_seconds then
    let st' := { st with is_running := true, is_completed := false }
    (st', [st'])
  else (st, [])

/-- Mirrors `TimerLogic::pause_timer`: when running, clear `is_running` and
notify. -/
def TimerLogic.pause_timer (st : TimerState) : TimerState × List TimerState :=
  if st.is_running = true then
    let st' := { st with is_running := false }
    (st', [st'])
  else (st, [])

/-- Mirrors `TimerLogic::reset_timer`: `state.reset()` then notify. -/
def TimerLogic.reset_timer (st : TimerState) : TimerState × List TimerState :=
  let st' := st.reset
  (st', [st'])

/-- Mirrors `TimerLogic::tick`: returns the boolean result, the new state and
the notified snapshots.  Ineligible calls (`!is_running || is_completed`)
return `false` unchanged; otherwise a positive remainder is decremented by one
(one notification), and reaching zero additionally clears `is_running`, sets
`is_completed`, notifies a second time and returns `true`. -/
def TimerLogic.tick (st : TimerState) : Bool × TimerState × List TimerState :=
  if st.is_running = false ∨ st.is_completed = true then
    (false, st, [])
  else if 0 < st.remaining_seconds then
    let st1 := { st with remaining_seconds := st.remaining_seconds - 1 }
    if st1.remaining_seconds = 0 then
      let st2 := { st1 with is_running := false, is_completed := true }
      (true, st2, [st1, st2])
    else
      (false, st1, [st1])
  else
    (false, st, [])

/-- One public mutating call on the controller. -/
inductive Op where
  | set_time (hours minutes seconds : Nat)
  | start
  | pause
  | reset
  | tick
deriving DecidableEq

/-- The state after applying one mutating call. -/
def applyOp (st : TimerState) : Op → TimerState
  | .set_time h m s => (TimerLogic.set_time st h m s).2.1
  | .start => (TimerLogic.start_timer st).1
  | .pause => (TimerLogic.pause_timer st).1
  | .reset => (TimerLogic.reset_timer st).1
  | .tick => (TimerLogic.tick st).2.1

/-- States a `TimerLogic` instance can own: the constructors' initial states,
closed under the public mutating calls. -/
inductive Reachable : TimerState → Prop where
  | init : Reachable TimerState.default
  | with_time {h m s : Nat} :
      validate_time h m s = .ok () → Reachable (TimerState.new h m s)
  | step {st : TimerState} (op : Op) : Reachable st → Reachable (applyOp st op)

/-! ### Helper lemmas -/

lemma data_head_hoursErrMsg (h : Nat) : (hoursErrMsg h).data.head? = some 'H' := by
  rw [hoursErrMsg, String.data_append]; rfl

lemma data_head_minutesErrMsg (m : Nat) : (minutesErrMsg m).data.head? = some 'M' := by
  rw [minutesErrMsg, String.data_append]; rfl

lemma data_head_secondsErrMsg (s : Nat) : (secondsErrMsg s).data.head? = some 'S' := by
  rw [secondsErrMsg, String.data_append]; rfl

lemma data_head_zeroErrMsg : zeroErrMsg.data.head? = some 'T' := rfl

lemma ne_of_head_ne {a b : String} {c d : Char} (ha : a.data.head? = some c)
    (hb : b.data.head? = some d) (hcd : c ≠ d) : a ≠ b := by
  intro h
  subst h
  rw [ha] at hb
  exact hcd (Option.some.inj hb)

lemma hoursErrMsg_ne_minutesErrMsg (a b : Nat) : hoursErrMsg a ≠ minutesErrMsg b :=
  ne_of_head_ne (data_head_hoursErrMsg a) (data_head_minutesErrMsg b) (by decide)

lemma hoursErrMsg_ne_secondsErrMsg (a b : Nat) : hoursErrMsg a ≠ secondsErrMsg b :=
  ne_of_head_ne (data_head_hoursErrMsg a) (data_head_secondsErrMsg b) (by decide)

lemma hoursErrMsg_ne_zeroErrMsg (a : Nat) : hoursErrMsg a ≠ zeroErrMsg :=
  ne_of_head_ne (data_head_hoursErrMsg a) data_head_zeroErrMsg (by decide)

lemma minutesErrMsg_ne_secondsErrMsg (a b : Nat) : minutesErrMsg a ≠ secondsErrMsg b :=
  ne_of_head_ne (data_head_minutesErrMsg a) (data_head_secondsErrMsg b) (by decide)

lemma minutesErrMsg_ne_zeroErrMsg (a : Nat) : minutesErrMsg a ≠ zeroErrMsg :=
  ne_of_head_ne (data_head_minutesErrMsg a) data_head_zeroErrMsg (by decide)

lemma secondsErrMsg_ne_zeroErrMsg (a : Nat) : secondsErrMsg a ≠ zeroErrMsg :=
  ne_of_head_ne (data_head_secondsErrMsg a) data_head_zeroErrMsg (by decide)

lemma validate_time_ok_iff (h m s : Nat) :
    validate_time h m s = .ok () ↔
      h ≤ 23 ∧ m ≤ 59 ∧ s ≤ 59 ∧ ¬(h = 0 ∧ m = 0 ∧ s = 0) := by
  unfold validate_time
  split_ifs with h1 h2 h3 h4 <;> simp_all

lemma total_lt_u32 {h m s : Nat} (hh : h ≤ 23) (hm : m ≤ 59) (hs : s ≤ 59) :
    h * 3600 + m * 60 + s < u32Mod := by
  unfold u32Mod; omega

lemma new_remaining {h m s : Nat} (hh : h ≤ 23) (hm : m ≤ 59) (hs : s ≤ 59) :
    (TimerState.new h m s).remaining_seconds = h * 3600 + m * 60 + s := by
  unfold TimerState.new
  exact Nat.mod_eq_of_lt (total_lt_u32 hh hm hs)

/-! ### Claim theorems -/

/-- C3: `validate_time` checks the rules in order with the first failure
winning: the hours error exactly when `hours > 23`; otherwise the minutes
error exactly when `minutes > 59`; otherwise the seconds error exactly when
`seconds > 59`; otherwise the zero-duration error exactly when all three are
zero; otherwise success.  (As a Lean function it is pure and deterministic.) -/
theorem validate_time_ordered_spec (h m s : Nat) :
    (validate_time h m s = .error (hoursErrMsg h) ↔ 23 < h) ∧
    (validate_time h m s = .error (minutesErrMsg m) ↔ h ≤ 23 ∧ 59 < m) ∧
    (validate_time h m s = .error (secondsErrMsg s) ↔ h ≤ 23 ∧ m ≤ 59 ∧ 59 < s) ∧
    (validate_time h m s = .error zeroErrMsg ↔ h = 0 ∧ m = 0 ∧ s = 0) ∧
    (validate_time h m s = .ok () ↔
      h ≤ 23 ∧ m ≤ 59 ∧ s ≤ 59 ∧ ¬(h = 0 ∧ m = 0 ∧ s = 0)) := by
  refine ⟨?_, ?_, ?_, ?_, validate_time_ok_iff h m s⟩ <;>
    unfold validate_time <;>
    split_ifs with h1 h2 h3 h4 <;>
    simp_all [hoursErrMsg_ne_minutesErrMsg, hoursErrMsg_ne_secondsErrMsg,
      hoursErrMsg_ne_zeroErrMsg, minutesErrMsg_ne_secondsErrMsg,
      minutesErrMsg_ne_zeroErrMsg, secondsErrMsg_ne_zeroErrMsg,
      (hoursErrMsg_ne_minutesErrMsg h m).symm, (hoursErrMsg_ne_secondsErrMsg h s).symm,
      (minutesErrMsg_ne_secondsErrMsg m s).symm, (hoursErrMsg_ne_zeroErrMsg 0).symm,
      (minutesErrMsg_ne_zeroErrMsg 0).symm, (secondsErrMsg_ne_zeroErrMsg 0).symm] <;>
    omega

theorem validate_time_ordered_spec_witness :
    (validate_time 0 60 0 = .error (minutesErrMsg 60) ↔ 0 ≤ 23 ∧ 59 < 60) ∧
    (validate_time 0 60 0 = .ok () ↔
      0 ≤ 23 ∧ 60 ≤ 59 ∧ 0 ≤ 59 ∧ ¬(0 = 0 ∧ 60 = 0 ∧ 0 = 0)) :=
  ⟨(validate_time_ordered_spec 0 60 0).2.1, (validate_time_ordered_spec 0 60 0).2.2.2.2⟩

/-- C2: `set_time` is all-or-nothing: on validation failure it returns the
error, leaves the state unchanged and notifies nobody; on success it replaces
the whole state with `TimerState.new h m s` (whose `remaining_seconds` is
`h*3600 + m*60 + s` with both flags cleared) and notifies once. -/
theorem set_time_all_or_nothing (st : TimerState) (h m s : Nat) :
    (∀ e, validate_time h m s = .error e →
      TimerLogic.set_time st h m s = (.error e, st, [])) ∧
    (validate_time h m s = .ok () →
      TimerLogic.set_time st h m s =
        (.ok (), TimerState.new h m s, [TimerState.new h m s]) ∧
      (TimerState.new h m s).remaining_seconds = h * 3600 + m * 60 + s ∧
      (TimerState.new h m s).is_running = false ∧
      (TimerState.new h m s).is_completed = false) := by
  constructor
  · intro e he
    unfold TimerLogic.set_time
    rw [he]
  · intro hok
    obtain ⟨hh, hm, hs, hnz⟩ := (validate_time_ok_iff h m s).1 hok
    refine ⟨?_, new_remaining hh hm hs, rfl, rfl⟩
    unfold TimerLogic.set_time
    rw [hok]

theorem set_time_all_or_nothing_witness :
    TimerLogic.set_time (TimerState.new 2 15 30) 25 0 0 =
      (.error (hoursErrMsg 25), TimerState.new 2 15 30, []) ∧
    TimerLogic.set_time (TimerState.new 2 15 30) 0 0 5 =
      (.ok (), TimerState.new 0 0 5, [TimerState.new 0 0 5]) :=
  ⟨(set_time_all_or_nothing (TimerState.new 2 15 30) 25 0 0).1
      (hoursErrMsg 25) rfl,
    ((set_time_all_or_nothing (TimerState.new 2 15 30) 0 0 5).2 rfl).1⟩

/-- C10: a fresh, never-configured controller (`TimerLogic::new`) owns the
all-zero state, formats as `"00:00:00"`, and on it `start_timer` and `tick`
change nothing, notify nobody, and `tick` returns `false`. -/
theorem fresh_controller_inert :
    TimerLogic.new = TimerState.default ∧
    TimerState.default.hours = 0 ∧ TimerState.default.minutes = 0 ∧
    TimerState.default.seconds = 0 ∧ TimerState.default.remaining_seconds = 0 ∧
    TimerState.default.is_running = false ∧ TimerState.default.is_completed = false ∧
    TimerState.default.format_remaining_time = "00:00:00" ∧
    TimerLogic.start_timer TimerState.default = (TimerState.default, []) ∧
    TimerLogic.tick TimerState.default = (false, TimerState.default, []) := by
  decide

/-- C1: `tick` is a no-op returning `false` unless running and not completed;
when eligible with a positive remainder it decrements by exactly one, reaching
zero additionally clears `is_running` and sets `is_completed`; the result is
`true` exactly when the call moved the state into `Completed`; and a timer
configured to `0:0:3` and started answers `false, false, true` to three ticks,
ending not running, completed, with zero remaining. -/
theorem tick_transition_spec (st : TimerState) :
    (¬(st.is_running = true ∧ st.is_completed = false) →
      TimerLogic.tick st = (false, st, [])) ∧
    (st.is_running = true → st.is_completed = false → 0 < st.remaining_seconds →
      (TimerLogic.tick st).2.1.remaining_seconds = st.remaining_seconds - 1 ∧
      (st.remaining_seconds = 1 →
        (TimerLogic.tick st).2.1.is_running = false ∧
        (TimerLogic.tick st).2.1.is_completed = true ∧
        (TimerLogic.tick st).1 = true) ∧
      (1 < st.remaining_seconds →
        (TimerLogic.tick st).2.1.is_running = true ∧
        (TimerLogic.tick st).2.1.is_completed = false ∧
        (TimerLogic.tick st).1 = false)) ∧
    ((TimerLogic.tick st).1 = true ↔
      st.is_completed = false ∧ (TimerLogic.tick st).2.1.is_completed = true) ∧
    ((TimerLogic.tick ((TimerLogic.start_timer (TimerState.new 0 0 3)).1)).1 = false ∧
      (TimerLogic.tick
        (TimerLogic.tick ((TimerLogic.start_timer (TimerState.new 0 0 3)).1)).2.1).1 = false ∧
      (TimerLogic.tick (TimerLogic.tick
        (TimerLogic.tick ((TimerLogic.start_timer (TimerState.new 0 0 3)).1)).2.1).2.1).1 = true ∧
      (TimerLogic.tick (TimerLogic.tick
        (TimerLogic.tick ((TimerLogic.start_timer (TimerState.new 0 0 3)).1)).2.1).2.1).2.1 =
        { hours := 0, minutes := 0, seconds := 3, remaining_seconds := 0,
          is_running := false, is_completed := true }) := by
  obtain ⟨hh, mm, ss, r, run, comp⟩ := st
  refine ⟨?_, ?_, ?_, by decide⟩
  · intro hne
    cases run <;> cases comp <;> simp_all [TimerLogic.tick]
  · intro hrun hcomp hr
    cases run <;> cases comp <;> simp_all [TimerLogic.tick] <;>
      split_ifs with h0 <;> simp_all <;> omega
  · cases run <;> cases comp <;> simp [TimerLogic.tick] <;>
      split_ifs <;> simp_all

/-- The inductive invariant of reachable states: bounded stored configuration,
mutually exclusive flags, and the meaning of a zero remainder. -/
def GoodState (st : TimerState) : Prop :=
  st.hours ≤ 23 ∧ st.minutes ≤ 59 ∧ st.seconds ≤ 59 ∧
  ¬(st.is_running = true ∧ st.is_completed = true) ∧
  (st.remaining_seconds = 0 → st.is_running = false ∧
    (0 < st.hours * 3600 + st.minutes * 60 + st.seconds → st.is_completed = true))

lemma good_new {h m s : Nat} (hok : validate_time h m s = .ok ()) :
    GoodState (TimerState.new h m s) := by
  obtain ⟨hh, hm, hs, hnz⟩ := (validate_time_ok_iff h m s).1 hok
  refine ⟨hh, hm, hs, by simp [TimerState.new], ?_⟩
  intro h0
  rw [new_remaining hh hm hs] at h0
  exact absurd h0 (by omega)

lemma good_preserved {st : TimerState} (hg : GoodState st) (op : Op) :
    GoodState (applyOp st op) := by
  obtain ⟨hh, mm, ss, r, run, comp⟩ := st
  obtain ⟨b1, b2, b3, b4, b5⟩ := hg
  cases op with
  | set_time h m s =>
      rcases hv : validate_time h m s with e | u
      · simpa [applyOp, TimerLogic.set_time, hv] using ⟨b1, b2, b3, b4, b5⟩
      · simpa [applyOp, TimerLogic.set_time, hv] using good_new hv
  | start =>
      cases run <;> cases comp <;>
        simp_all [applyOp, TimerLogic.start_timer, GoodState] <;>
        split_ifs <;> simp_all <;> omega
  | pause =>
      cases run <;> cases comp <;>
        simp_all [applyOp, TimerLogic.pause_timer, GoodState]
  | reset =>
      have hlt := total_lt_u32 b1 b2 b3
      cases run <;> cases comp <;>
        simp_all [applyOp, TimerLogic.reset_timer, TimerState.reset, GoodState,
          Nat.mod_eq_of_lt hlt]
  | tick =>
      cases run <;> cases comp <;>
        simp_all [applyOp, TimerLogic.tick, GoodState] <;>
        split_ifs <;> simp_all

lemma reachable_good {st : TimerState} (hr : Reachable st) : GoodState st := by
  induction hr with
  | init => simp [GoodState, TimerState.default]
  | with_time hok => exact good_new hok
  | step op hst ih => exact good_preserved ih op

/-- C4: in every reachable controller state, `is_running` and `is_completed`
are never both true; the invariant holds initially and is preserved by every
operation. -/
theorem running_completed_exclusive (st : TimerState) (hr : Reachable st) :
    ¬(st.is_running = true ∧ st.is_completed = true) :=
  (reachable_good hr).2.2.2.1

theorem running_completed_exclusive_witness :
    ¬(TimerState.default.is_running = true ∧ TimerState.default.is_completed = true) :=
  running_completed_exclusive TimerState.default Reachable.init

/-- C5 counterexample: the never-configured initial state of `TimerLogic::new`
is reachable, has `remaining_seconds = 0`, and yet is not completed — so a
reachable state with zero remainder need not have `is_completed = true`. -/
theorem zero_remaining_completed_counterexample :
    Reachable TimerState.default ∧
    TimerState.default.remaining_seconds = 0 ∧
    TimerState.default.is_completed = false ∧
    TimerState.default.is_running = false :=
  ⟨Reachable.init, rfl, rfl, rfl⟩

/-- C5 amended: every reachable state with `remaining_seconds = 0` has
`is_running = false`; and if the stored configuration is nonzero (i.e. the
timer has been configured, since validation rejects the zero duration),
`is_completed = true` as well — only the inert never-configured all-zero
state is exempt. -/
theorem zero_remaining_forces_completed (st : TimerState) (hr : Reachable st)
    (h0 : st.remaining_seconds = 0) :
    st.is_running = false ∧
    (0 < st.hours * 3600 + st.minutes * 60 + st.seconds → st.is_completed = true) :=
  (reachable_good hr).2.2.2.2 h0

theorem zero_remaining_forces_completed_witness :
    TimerState.default.is_running = false ∧
    (0 < TimerState.default.hours * 3600 + TimerState.default.minutes * 60 +
        TimerState.default.seconds → TimerState.default.is_completed = true) :=
  zero_remaining_forces_completed TimerState.default Reachable.init rfl

/-- C8 counterexample: `remaining_seconds` can decrease other than by an
eligible tick: from the reachable running state configured to `0:0:5`, a
successful `set_time(0,0,1)` drops `remaining_seconds` from 5 to 1. -/
theorem remaining_decrease_counterexample :
    Reachable (applyOp (applyOp TimerState.default (Op.set_time 0 0 5)) Op.start) ∧
    (applyOp (applyOp TimerState.default (Op.set_time 0 0 5)) Op.start).is_running = true ∧
    (applyOp (applyOp (applyOp TimerState.default (Op.set_time 0 0 5)) Op.start)
        (Op.set_time 0 0 1)).remaining_seconds <
      (applyOp (applyOp TimerState.default (Op.set_time 0 0 5)) Op.start).remaining_seconds ∧
    Op.set_time 0 0 1 ≠ Op.tick :=
  ⟨Reachable.step Op.start (Reachable.step (Op.set_time 0 0 5) Reachable.init),
    by decide, by decide, by decide⟩

/-- C8 amended: among `start`, `pause` and `tick`, `remaining_seconds` never
decreases except by exactly 1 per eligible `tick` while running (successful
`set_time` and `reset` may instead rewrite it to the configured total); and
`tick` never takes it below zero — at zero the decrement is skipped. -/
theorem remaining_monotonic (st : TimerState) (op : Op)
    (hop : op = Op.start ∨ op = Op.pause ∨ op = Op.tick) :
    ((applyOp st op).remaining_seconds = st.remaining_seconds ∨
      ((applyOp st op).remaining_seconds + 1 = st.remaining_seconds ∧
        op = Op.tick ∧ st.is_running = true ∧ st.is_completed = false ∧
        0 < st.remaining_seconds)) ∧
    (st.remaining_seconds = 0 → (applyOp st op).remaining_seconds = 0) := by
  obtain ⟨hh, mm, ss, r, run, comp⟩ := st
  rcases hop with h | h | h <;> subst h <;>
    cases run <;> cases comp <;>
    simp_all [applyOp, TimerLogic.start_timer, TimerLogic.pause_timer,
      TimerLogic.tick] <;>
    split_ifs <;> simp_all <;> omega

theorem remaining_monotonic_witness :
    ((applyOp (TimerState.new 0 0 2) Op.start).remaining_seconds =
        (TimerState.new 0 0 2).remaining_seconds ∨
      ((applyOp (TimerState.new 0 0 2) Op.start).remaining_seconds + 1 =
          (TimerState.new 0 0 2).remaining_seconds ∧
        Op.start = Op.tick ∧ (TimerState.new 0 0 2).is_running = true ∧
        (TimerState.new 0 0 2).is_completed = false ∧
        0 < (TimerState.new 0 0 2).remaining_seconds)) ∧
    ((TimerState.new 0 0 2).remaining_seconds = 0 →
      (applyOp (TimerState.new 0 0 2) Op.start).remaining_seconds = 0) :=
  remaining_monotonic (TimerState.new 0 0 2) Op.start (Or.inl rfl)

theorem tick_transition_spec_witness :
    TimerLogic.tick (TimerState.new 0 0 9) = (false, TimerState.new 0 0 9, []) ∧
    (TimerLogic.tick
      { hours := 0, minutes := 0, seconds := 9, remaining_seconds := 5,
        is_running := true, is_completed := false }).2.1.remaining_seconds = 5 - 1 :=
  ⟨(tick_transition_spec (TimerState.new 0 0 9)).1 (by decide),
    ((tick_transition_spec
      { hours := 0, minutes := 0, seconds := 9, remaining_seconds := 5,
        is_running := true, is_completed := false }).2.1 rfl rfl (by decide)).1⟩

lemma applyOp_preserves_config (st : TimerState) (op : Op)
    (hop : op = Op.start ∨ op = Op.tick) :
    (applyOp st op).hours = st.hours ∧ (applyOp st op).minutes = st.minutes ∧
    (applyOp st op).seconds = st.seconds := by
  obtain ⟨hh, mm, ss, r, run, comp⟩ := st
  rcases hop with h | h <;> subst h <;>
    simp only [applyOp, TimerLogic.start_timer, TimerLogic.tick] <;>
    split_ifs <;> simp

lemma foldl_preserves_config (ops : List Op)
    (hops : ∀ op ∈ ops, op = Op.start ∨ op = Op.tick) (st : TimerState) :
    (ops.foldl applyOp st).hours = st.hours ∧
    (ops.foldl applyOp st).minutes = st.minutes ∧
    (ops.foldl applyOp st).seconds = st.seconds := by
  induction ops generalizing st with
  | nil => exact ⟨rfl, rfl, rfl⟩
  | cons op rest ih =>
      have h1 := applyOp_preserves_config st op (hops op (List.mem_cons_self op rest))
      have h2 := ih (fun o ho => hops o (List.mem_cons_of_mem op ho)) (applyOp st op)
      exact ⟨h2.1.trans h1.1, h2.2.1.trans h1.2.1, h2.2.2.trans h1.2.2⟩

/-- C7: round-trip — after a successful `set_time(h,m,s)`, any number of
intervening `start` and `tick` calls followed by `reset_timer` restores
`remaining_seconds` to `h*3600 + m*60 + s` and clears both flags. -/
theorem configure_reset_roundtrip (st : TimerState) (h m s : Nat)
    (hok : validate_time h m s = .ok ()) (ops : List Op)
    (hops : ∀ op ∈ ops, op = Op.start ∨ op = Op.tick) :
    (TimerLogic.reset_timer
        (ops.foldl applyOp (TimerLogic.set_time st h m s).2.1)).1.remaining_seconds =
      h * 3600 + m * 60 + s ∧
    (TimerLogic.reset_timer
        (ops.foldl applyOp (TimerLogic.set_time st h m s).2.1)).1.is_running = false ∧
    (TimerLogic.reset_timer
        (ops.foldl applyOp (TimerLogic.set_time st h m s).2.1)).1.is_completed = false := by
  obtain ⟨hh, hm, hs, hnz⟩ := (validate_time_ok_iff h m s).1 hok
  have hset : (TimerLogic.set_time st h m s).2.1 = TimerState.new h m s := by
    simp [TimerLogic.set_time, hok]
  rw [hset]
  have hcfg := foldl_preserves_config ops hops (TimerState.new h m s)
  refine ⟨?_, rfl, rfl⟩
  have hlt := total_lt_u32 hh hm hs
  simp only [TimerLogic.reset_timer, TimerState.reset, hcfg.1, hcfg.2.1, hcfg.2.2]
  simp only [TimerState.new, u32Mod] at hlt ⊢
  omega

theorem configure_reset_roundtrip_witness :
    (TimerLogic.reset_timer
        ([Op.start, Op.tick].foldl applyOp
          (TimerLogic.set_time TimerState.default 0 0 2).2.1)).1.remaining_seconds =
      0 * 3600 + 0 * 60 + 2 ∧
    (TimerLogic.reset_timer
        ([Op.start, Op.tick].foldl applyOp
          (TimerLogic.set_time TimerState.default 0 0 2).2.1)).1.is_running = false ∧
    (TimerLogic.reset_timer
        ([Op.start, Op.tick].foldl applyOp
          (TimerLogic.set_time TimerState.default 0 0 2).2.1)).1.is_completed = false :=
  configure_reset_roundtrip TimerState.default 0 0 2 rfl [Op.start, Op.tick] (by decide)

/-- C9: for every in-range, not-all-zero configuration, validation succeeds and
formatting the freshly constructed state yields the zero-padded `HH:MM:SS`
rendering of exactly `h`, `m`, `s` (recovered by division/modulo by 3600 and
60). -/
theorem validate_construct_format (h m s : Nat) (hh : h ≤ 23) (hm : m ≤ 59)
    (hs : s ≤ 59) (hnz : ¬(h = 0 ∧ m = 0 ∧ s = 0)) :
    validate_time h m s = .ok () ∧
    (TimerState.new h m s).format_remaining_time =
      pad2 h ++ ":" ++ pad2 m ++ ":" ++ pad2 s := by
  refine ⟨(validate_time_ok_iff h m s).2 ⟨hh, hm, hs, hnz⟩, ?_⟩
  have hr := new_remaining hh hm hs
  unfold TimerState.format_remaining_time
  rw [hr]
  have e1 : (h * 3600 + m * 60 + s) / 3600 = h := by omega
  have e2 : (h * 3600 + m * 60 + s) % 3600 / 60 = m := by omega
  have e3 : (h * 3600 + m * 60 + s) % 60 = s := by omega
  rw [e1, e2, e3]

theorem validate_construct_format_witness :
    validate_time 1 2 3 = .ok () ∧
    (TimerState.new 1 2 3).format_remaining_time =
      pad2 1 ++ ":" ++ pad2 2 ++ ":" ++ pad2 3 :=
  validate_construct_format 1 2 3 (by decide) (by decide) (by decide) (by decide)

/-- C6: the snapshots handed to the observer callback per call: one per
state-changing call (successful `set_time`, eligible `start`, eligible
`pause`, any `reset`) carrying the new state; two for the single `tick` that
decrements to zero and completes (the post-decrement snapshot, then the
completed state); zero for ineligible no-op calls. -/
theorem observer_notification_spec (st : TimerState) (h m s : Nat) :
    (validate_time h m s = .ok () →
      (TimerLogic.set_time st h m s).2.2 = [(TimerLogic.set_time st h m s).2.1]) ∧
    (∀ e, validate_time h m s = .error e → (TimerLogic.set_time st h m s).2.2 = []) ∧
    (st.is_completed = false ∧ 0 < st.remaining_seconds →
      (TimerLogic.start_timer st).2 = [(TimerLogic.start_timer st).1]) ∧
    (¬(st.is_completed = false ∧ 0 < st.remaining_seconds) →
      TimerLogic.start_timer st = (st, [])) ∧
    (st.is_running = true →
      (TimerLogic.pause_timer st).2 = [(TimerLogic.pause_timer st).1]) ∧
    (st.is_running = false → TimerLogic.pause_timer st = (st, [])) ∧
    ((TimerLogic.reset_timer st).2 = [(TimerLogic.reset_timer st).1]) ∧
    (st.is_running = true → st.is_completed = false → st.remaining_seconds = 1 →
      (TimerLogic.tick st).2.2 =
        [{ st with remaining_seconds := 0 }, (TimerLogic.tick st).2.1]) ∧
    (st.is_running = true → st.is_completed = false → 1 < st.remaining_seconds →
      (TimerLogic.tick st).2.2 = [(TimerLogic.tick st).2.1]) ∧
    (¬(st.is_running = true ∧ st.is_completed = false ∧ 0 < st.remaining_seconds) →
      (TimerLogic.tick st).2.2 = []) := by
  obtain ⟨hh, mm, ss, r, run, comp⟩ := st
  refine ⟨?_, ?_, ?_, ?_, ?_, ?_, rfl, ?_, ?_, ?_⟩
  · intro hok
    simp [TimerLogic.set_time, hok]
  · intro e he
    simp [TimerLogic.set_time, he]
  · intro hc
    simp only [TimerLogic.start_timer, if_pos hc]
  · intro hc
    simp only [TimerLogic.start_timer, if_neg hc]
  · intro hc
    simp only [TimerLogic.pause_timer, if_pos hc]
  · intro hc
    subst hc
    simp [TimerLogic.pause_timer]
  · intro hrun hcomp hr1
    subst hrun
    subst hcomp
    subst hr1
    simp [TimerLogic.tick]
  · intro hrun hcomp hr1
    subst hrun
    subst hcomp
    simp only [TimerLogic.tick]
    split_ifs with hc1 hc2 hc3 <;> simp_all <;> omega
  · intro hne
    cases run <;> cases comp <;> simp_all [TimerLogic.tick]

theorem observer_notification_spec_witness :
    (TimerLogic.set_time TimerState.default 0 0 2).2.2 =
      [(TimerLogic.set_time TimerState.default 0 0 2).2.1] ∧
    (TimerLogic.tick
      { hours := 0, minutes := 0, seconds := 2, remaining_seconds := 1,
        is_running := true, is_completed := false }).2.2 =
      [{ hours := 0, minutes := 0, seconds := 2, remaining_seconds := 0,
          is_running := true, is_completed := false },
        (TimerLogic.tick
          { hours := 0, minutes := 0, seconds := 2, remaining_seconds := 1,
            is_running := true, is_completed := false }).2.1] :=
  ⟨(observer_notification_spec TimerState.default 0 0 2).1 rfl,
    (observer_notification_spec
      { hours := 0, minutes := 0, seconds := 2, remaining_seconds := 1,
        is_running := true, is_completed := false } 0 0 2).2.2.2.2.2.2.2.1
      rfl rfl rfl⟩
